import Mathlib

/-!
Verification of the atop 2.30 binary-layout module (`pyatop/structs/atop_230.py`).

The module declares ctypes structures mirroring the atop C structs on a
64-bit Linux target.  We embed the ctypes layout language shallowly: a
`CType` is a scalar, a fixed-length array, or a structure given by its
ordered field list.  Sizes, alignments and field offsets follow the ctypes
(natural C ABI) layout rules: each field is placed at the next offset that
is a multiple of its natural alignment, and the total structure size is
rounded up to a multiple of the structure's alignment (the maximum field
alignment).  Decoding maps a byte sequence onto a value field by field at
those offsets, little-endian, exactly as ctypes `from_buffer_copy` does.
-/

/-- The ctypes scalar types used by the atop 2.30 module (64-bit Linux target).
`count_t` is `c_longlong`, `time_t` and `off_t` are `c_long`. -/
inductive CScalar where
  | c_char
  | c_ushort
  | c_uint
  | c_int
  | c_long
  | c_ulong
  | c_longlong
  | c_float
deriving DecidableEq, Repr

/-- Byte width of a scalar on the 64-bit Linux target. -/
def CScalar.size : CScalar → Nat
  | .c_char => 1
  | .c_ushort => 2
  | .c_uint => 4
  | .c_int => 4
  | .c_long => 8
  | .c_ulong => 8
  | .c_longlong => 8
  | .c_float => 4

/-- Natural alignment of a scalar on the 64-bit Linux target. -/
def CScalar.align : CScalar → Nat
  | .c_char => 1
  | .c_ushort => 2
  | .c_uint => 4
  | .c_int => 4
  | .c_long => 8
  | .c_ulong => 8
  | .c_longlong => 8
  | .c_float => 4

/-- Whether ctypes reads the scalar as a signed integer.  `c_char` is
exposed by ctypes as raw bytes, modelled here as unsigned; `c_float` is
modelled by its raw little-endian bit pattern. -/
def CScalar.signed : CScalar → Bool
  | .c_int => true
  | .c_long => true
  | .c_longlong => true
  | _ => false

mutual
/-- A ctypes type: a scalar, a fixed-length array `t * n`, or a
`ctypes.Structure` with its ordered `_fields_` list. -/
inductive CType where
  | prim (p : CScalar)
  | array (t : CType) (n : Nat)
  | cstruct (name : String) (fields : CFields)
deriving DecidableEq, Repr

/-- The ordered `_fields_` list of a structure: (field name, field type) pairs. -/
inductive CFields where
  | nil
  | cons (fname : String) (t : CType) (rest : CFields)
deriving DecidableEq, Repr
end

/-- Round `off` up to the next multiple of `a` (ctypes field placement). -/
def alignTo (off a : Nat) : Nat :=
  if a = 0 then off else ((off + a - 1) / a) * a

mutual
/-- Alignment of a ctypes type: scalar alignment, element alignment for
arrays, and the maximum field alignment for structures. -/
def alignofC : CType → Nat
  | .prim p => p.align
  | .array t _ => alignofC t
  | .cstruct _ fs => alignFields fs

/-- Maximum alignment over a field list (1 when empty). -/
def alignFields : CFields → Nat
  | .nil => 1
  | .cons _ t rest => max (alignofC t) (alignFields rest)
end

mutual
/-- ctypes `sizeof`: scalar width, `n * sizeof t` for arrays, and for a
structure the aligned end offset of its field sequence rounded up to the
structure alignment. -/
def sizeofC : CType → Nat
  | .prim p => p.size
  | .array t n => n * sizeofC t
  | .cstruct _ fs => alignTo (fieldsEnd fs 0) (alignFields fs)

/-- End offset after laying out the fields starting at `off`, placing each
field at the next offset aligned to its natural alignment. -/
def fieldsEnd : CFields → Nat → Nat
  | .nil, off => off
  | .cons _ t rest, off => fieldsEnd rest (alignTo off (alignofC t) + sizeofC t)
end

mutual
/-- Sum of the declared field widths of a type, with no padding anywhere:
scalars contribute their width, arrays `n` times the element sum, and
structures the sum over their fields. -/
def sumWidths : CType → Nat
  | .prim p => p.size
  | .array t n => n * sumWidths t
  | .cstruct _ fs => sumWidthsFields fs

/-- Sum of `sumWidths` over a field list. -/
def sumWidthsFields : CFields → Nat
  | .nil => 0
  | .cons _ t rest => sumWidths t + sumWidthsFields rest
end

/-- The ordered list of field names of a field list. -/
def fieldNames : CFields → List String
  | .nil => []
  | .cons n _ rest => n :: fieldNames rest

/-- The ordered list of field types of a field list. -/
def fieldTypes : CFields → List CType
  | .nil => []
  | .cons _ t rest => t :: fieldTypes rest

/-- Look up a field by name in a field sequence laid out from offset `off`,
returning its type and its ctypes byte offset. -/
def fieldTyOff : CFields → String → Nat → Option (CType × Nat)
  | .nil, _, _ => none
  | .cons n t rest, fname, off =>
    let o := alignTo off (alignofC t)
    if n = fname then some (t, o) else fieldTyOff rest fname (o + sizeofC t)

/-- The byte offset of a named field within a structure type. -/
def offsetOf (t : CType) (fname : String) : Option Nat :=
  match t with
  | .cstruct _ fs => (fieldTyOff fs fname 0).map Prod.snd
  | _ => none

/-- The type of a named field within a structure type. -/
def fieldTypeOf (t : CType) (fname : String) : Option CType :=
  match t with
  | .cstruct _ fs => (fieldTyOff fs fname 0).map Prod.fst
  | _ => none

/-- The `_fields_` sequence of a structure type (`.nil` otherwise). -/
def structFieldsOf : CType → CFields
  | .cstruct _ fs => fs
  | _ => .nil

/-- Little-endian unsigned read of `w` bytes of `bs` starting at `off`;
bytes past the end of `bs` read as zero. -/
def readLE (bs : List Nat) (off w : Nat) : Nat :=
  match w with
  | 0 => 0
  | v + 1 => (bs.getD off 0) % 256 + 256 * readLE bs (off + 1) v

/-- Reinterpret an unsigned `w`-byte value as two's-complement signed. -/
def toSigned (w : Nat) (u : Nat) : Int :=
  if u < 2 ^ (8 * w - 1) then (u : Int) else (u : Int) - 2 ^ (8 * w)

/-- Read one scalar at `off`: little-endian, signed per the scalar type.
A `c_float` is represented by its raw 32-bit pattern. -/
def readScalar (p : CScalar) (bs : List Nat) (off : Nat) : Int :=
  if p.signed then toSigned p.size (readLE bs off p.size) else (readLE bs off p.size : Int)

mutual
/-- A decoded ctypes value: a scalar, an array of element values, or a
structure holding its field values in declaration order. -/
inductive CValue where
  | prim (v : Int)
  | arr (vs : CValues)
  | strct (vs : CValues)
deriving DecidableEq, Repr

/-- A sequence of decoded values. -/
inductive CValues where
  | nil
  | cons (v : CValue) (rest : CValues)
deriving DecidableEq, Repr
end

/-- Length of a decoded value sequence. -/
def CValues.length : CValues → Nat
  | .nil => 0
  | .cons _ rest => 1 + rest.length

/-- Decode `n` consecutive array elements of stride `sz` starting at `off`,
using `dec` to decode one element. -/
def decodeArrWith (dec : List Nat → Nat → CValue) (sz : Nat) : Nat → List Nat → Nat → CValues
  | 0, _, _ => .nil
  | n + 1, bs, off => .cons (dec bs off) (decodeArrWith dec sz n bs (off + sz))

mutual
/-- Decode one value of type `t` at byte offset `off` of `bs`, following
the ctypes layout: scalars read little-endian, arrays element by element,
structure fields at their aligned offsets. -/
def decodeTy : CType → List Nat → Nat → CValue
  | .prim p, bs, off => .prim (readScalar p bs off)
  | .array t n, bs, off => .arr (decodeArrWith (decodeTy t) (sizeofC t) n bs off)
  | .cstruct _ fs, bs, off => .strct (decodeFields fs bs off)

/-- Decode a field sequence laid out from `off`, each field at its aligned
offset. -/
def decodeFields : CFields → List Nat → Nat → CValues
  | .nil, _, _ => .nil
  | .cons _ t rest, bs, off =>
    let o := alignTo off (alignofC t)
    .cons (decodeTy t bs o) (decodeFields rest bs (o + sizeofC t))
end

/-- Decode the named field of a structure from `bs`: read one value of the
field's type at the field's ctypes offset (how ctypes field access reads
an instance mapped over a buffer). -/
def decodeField (t : CType) (fname : String) (bs : List Nat) : Option CValue :=
  match fieldTyOff (structFieldsOf t) fname 0 with
  | some (ft, o) => some (decodeTy ft bs o)
  | none => none

/-- The length of the named field of `t` decoded from `bs`, when that field
decodes to an array value. -/
def decodedArrayLength (t : CType) (fname : String) (bs : List Nat) : Option Nat :=
  match decodeField t fname bs with
  | some (.arr vs) => some vs.length
  | _ => none


/-- Build a `CFields` sequence from a plain list of (name, type) pairs. -/
def fieldsOfList : List (String × CType) → CFields
  | [] => .nil
  | (n, t) :: rest => .cons n t (fieldsOfList rest)

namespace atop_126

/-- `count_t` of the 1.26 module: `ctypes.c_longlong`. -/
def count_t : CType := .prim .c_longlong

/-- Modelled from the spec: the 1.26 `UTSName` layout (module
`pyatop/structs/atop_126.py` is not part of the sources here), reused by
2.30 for the `Header.utsname` sub-record — "fixed-width string fields for
system identity": OS name, hostname, release, version, machine, domain,
each the conventional 65-byte `utsname` character field. -/
def UTSName : CType := .cstruct "utsname" (fieldsOfList [
  ("sysname", .array (.prim .c_char) 65),
  ("nodename", .array (.prim .c_char) 65),
  ("release", .array (.prim .c_char) 65),
  ("version", .array (.prim .c_char) 65),
  ("machine", .array (.prim .c_char) 65),
  ("domain", .array (.prim .c_char) 65)])

/-- Modelled from the spec: the 1.26 `FreqCnt` layout (missing 1.26
module), reused inside the per-core timing entry of CPUStat — three 64-bit
frequency counters of the atop source the module mirrors. -/
def FreqCnt : CType := .cstruct "freqcnt" (fieldsOfList [
  ("maxfreq", count_t),
  ("cnt", count_t),
  ("ticks", count_t)])

/-- Modelled from the spec: the 1.26 `WWWStat` layout (missing 1.26
module), reused as the `www` sub-record of SStat — HTTP access counters of
the atop source the module mirrors. -/
def WWWStat : CType := .cstruct "wwwstat" (fieldsOfList [
  ("accesses", count_t),
  ("totkbytes", count_t),
  ("uptime", count_t),
  ("bworkers", .prim .c_int),
  ("iworkers", .prim .c_int)])

/-- Modelled from the spec: the 1.26 IPv4 protocol counters (missing 1.26
module), part of the NETStat "IPv4/IPv6/ICMP/UDP/TCP protocol counters". -/
def IPv4Stats : CType := .cstruct "ipv4_stats" (fieldsOfList ([
  "Forwarding", "DefaultTTL", "InReceives", "InHdrErrors", "InAddrErrors",
  "ForwDatagrams", "InUnknownProtos", "InDiscards", "InDelivers",
  "OutRequests", "OutDiscards", "OutNoRoutes", "ReasmTimeout", "ReasmReqds",
  "ReasmOKs", "ReasmFails", "FragOKs", "FragFails", "FragCreates"
  ].map (fun n => (n, count_t))))

/-- Modelled from the spec: the 1.26 ICMPv4 protocol counters (missing
1.26 module), part of the NETStat protocol counters. -/
def ICMPv4Stats : CType := .cstruct "icmpv4_stats" (fieldsOfList ([
  "InMsgs", "InErrors", "InDestUnreachs", "InTimeExcds", "InParmProbs",
  "InSrcQuenchs", "InRedirects", "InEchos", "InEchoReps", "InTimestamps",
  "InTimestampReps", "InAddrMasks", "InAddrMaskReps", "OutMsgs", "OutErrors",
  "OutDestUnreachs", "OutTimeExcds", "OutParmProbs", "OutSrcQuenchs",
  "OutRedirects", "OutEchos", "OutEchoReps", "OutTimestamps",
  "OutTimestampReps", "OutAddrMasks", "OutAddrMaskReps"
  ].map (fun n => (n, count_t))))

/-- Modelled from the spec: the 1.26 UDPv4 protocol counters (missing 1.26
module), part of the NETStat protocol counters. -/
def UDPv4Stats : CType := .cstruct "udpv4_stats" (fieldsOfList ([
  "InDatagrams", "NoPorts", "InErrors", "OutDatagrams"
  ].map (fun n => (n, count_t))))

/-- Modelled from the spec: the 1.26 TCP protocol counters (missing 1.26
module), part of the NETStat protocol counters. -/
def TCPStats : CType := .cstruct "tcp_stats" (fieldsOfList ([
  "RtoAlgorithm", "RtoMin", "RtoMax", "MaxConn", "ActiveOpens",
  "PassiveOpens", "AttemptFails", "EstabResets", "CurrEstab", "InSegs",
  "OutSegs", "RetransSegs", "InErrs", "OutRsts"
  ].map (fun n => (n, count_t))))

/-- Modelled from the spec: the 1.26 IPv6 protocol counters (missing 1.26
module), part of the NETStat protocol counters. -/
def IPv6Stats : CType := .cstruct "ipv6_stats" (fieldsOfList ([
  "Ip6InReceives", "Ip6InHdrErrors", "Ip6InTooBigErrors", "Ip6InNoRoutes",
  "Ip6InAddrErrors", "Ip6InUnknownProtos", "Ip6InTruncatedPkts",
  "Ip6InDiscards", "Ip6InDelivers", "Ip6OutForwDatagrams", "Ip6OutRequests",
  "Ip6OutDiscards", "Ip6OutNoRoutes", "Ip6ReasmTimeout", "Ip6ReasmReqds",
  "Ip6ReasmOKs", "Ip6ReasmFails", "Ip6FragOKs", "Ip6FragFails",
  "Ip6FragCreates", "Ip6InMcastPkts", "Ip6OutMcastPkts"
  ].map (fun n => (n, count_t))))

/-- Modelled from the spec: the 1.26 ICMPv6 protocol counters (missing
1.26 module), part of the NETStat protocol counters. -/
def ICMPv6Stats : CType := .cstruct "icmpv6_stats" (fieldsOfList ([
  "Icmp6InMsgs", "Icmp6InErrors", "Icmp6InDestUnreachs", "Icmp6InPktTooBigs",
  "Icmp6InTimeExcds", "Icmp6InParmProblems", "Icmp6InEchos",
  "Icmp6InEchoReplies", "Icmp6InGroupMembQueries", "Icmp6InGroupMembResponses",
  "Icmp6InGroupMembReductions", "Icmp6InRouterSolicits",
  "Icmp6InRouterAdvertisements", "Icmp6InNeighborSolicits",
  "Icmp6InNeighborAdvertisements", "Icmp6InRedirects", "Icmp6OutMsgs",
  "Icmp6OutDestUnreachs", "Icmp6OutPktTooBigs", "Icmp6OutTimeExcds",
  "Icmp6OutParmProblems", "Icmp6OutEchoReplies", "Icmp6OutRouterSolicits",
  "Icmp6OutNeighborSolicits", "Icmp6OutNeighborAdvertisements",
  "Icmp6OutRedirects", "Icmp6OutGroupMembResponses",
  "Icmp6OutGroupMembReductions"
  ].map (fun n => (n, count_t))))

/-- Modelled from the spec: the 1.26 UDPv6 protocol counters (missing 1.26
module), part of the NETStat protocol counters. -/
def UDPv6Stats : CType := .cstruct "udpv6_stats" (fieldsOfList ([
  "Udp6InDatagrams", "Udp6NoPorts", "Udp6InErrors", "Udp6OutDatagrams"
  ].map (fun n => (n, count_t))))

/-- Modelled from the spec: the 1.26 `NETStat` layout (missing 1.26
module), reused as the `net` sub-record of SStat — "IPv4/IPv6/ICMP/UDP/TCP
protocol counters" grouped per protocol. -/
def NETStat : CType := .cstruct "netstat" (fieldsOfList [
  ("ipv4", IPv4Stats),
  ("icmpv4", ICMPv4Stats),
  ("udpv4", UDPv4Stats),
  ("ipv6", IPv6Stats),
  ("icmpv6", ICMPv6Stats),
  ("udpv6", UDPv6Stats),
  ("tcp", TCPStats)])

/-- Modelled from the spec: the 1.26 per-task `CPU` layout (missing 1.26
module), reused as the `cpu` sub-record of TStat — per-process processor
usage counters of the atop source the module mirrors. -/
def CPU : CType := .cstruct "cpu" (fieldsOfList [
  ("utime", count_t),
  ("stime", count_t),
  ("nice", .prim .c_int),
  ("prio", .prim .c_int),
  ("rtprio", .prim .c_int),
  ("policy", .prim .c_int),
  ("curcpu", .prim .c_int),
  ("sleepavg", .prim .c_int),
  ("ifuture", .array (.prim .c_int) 4),
  ("cfuture", .array count_t 4)])

/-- Modelled from the spec: the 1.26 per-task `DSK` layout (missing 1.26
module), reused as the `dsk` sub-record of TStat — per-process disk usage
counters of the atop source the module mirrors. -/
def DSK : CType := .cstruct "dsk" (fieldsOfList [
  ("rio", count_t),
  ("rsz", count_t),
  ("wio", count_t),
  ("wsz", count_t),
  ("cwsz", count_t),
  ("cfuture", .array count_t 4)])

end atop_126

namespace atop_230

/-- `time_t = ctypes.c_long` (atop_230.py, definitions from time.h). -/
def time_t : CType := .prim .c_long

/-- `count_t = ctypes.c_longlong` (atop_230.py, definitions from atop.h). -/
def count_t : CType := .prim .c_longlong

/-- `off_t = ctypes.c_long` (atop_230.py, definitions from sys/types.h). -/
def off_t : CType := .prim .c_long

/-- `PNAMLEN = 15` (definitions from photoproc.h). -/
def PNAMLEN : Nat := 15

/-- `CMDLEN = 255` (definitions from photoproc.h). -/
def CMDLEN : Nat := 255

/-- `MAXCPU = 2048` (definitions from photosyst.h). -/
def MAXCPU : Nat := 2048

/-- `MAXDSK = 1024` (definitions from photosyst.h). -/
def MAXDSK : Nat := 1024

/-- `MAXLVM = 2048` (definitions from photosyst.h). -/
def MAXLVM : Nat := 2048

/-- `MAXMDD = 256` (definitions from photosyst.h). -/
def MAXMDD : Nat := 256

/-- `MAXINTF = 128` (definitions from photosyst.h). -/
def MAXINTF : Nat := 128

/-- `MAXCONTAINER = 128` (definitions from photosyst.h). -/
def MAXCONTAINER : Nat := 128

/-- `MAXNFSMOUNT = 64` (definitions from photosyst.h). -/
def MAXNFSMOUNT : Nat := 64

/-- `MAXDKNAM = 32` (definitions from photosyst.h). -/
def MAXDKNAM : Nat := 32

/-- `UTSName = atop_126.UTSName` (atop_230.py line 53): aliased, not copied. -/
def UTSName : CType := atop_126.UTSName

/-- The `_fields_` layout of `class Header` (C name `rawheader`). -/
def Header : CType := .cstruct "rawheader" (fieldsOfList [
  ("magic", .prim .c_uint),
  ("aversion", .prim .c_ushort),
  ("future1", .prim .c_ushort),
  ("future2", .prim .c_ushort),
  ("rawheadlen", .prim .c_ushort),
  ("rawreclen", .prim .c_ushort),
  ("hertz", .prim .c_ushort),
  ("sfuture", .array (.prim .c_ushort) 6),
  ("sstatlen", .prim .c_uint),
  ("tstatlen", .prim .c_uint),
  ("utsname", UTSName),
  ("cfuture", .array (.prim .c_char) 8),
  ("pagesize", .prim .c_uint),
  ("supportflags", .prim .c_int),
  ("osrel", .prim .c_int),
  ("osvers", .prim .c_int),
  ("ossub", .prim .c_int),
  ("ifuture", .array (.prim .c_int) 6)])

/-- The `_fields_` layout of `class Record` (C name `rawrecord`). -/
def Record : CType := .cstruct "rawrecord" (fieldsOfList [
  ("curtime", time_t),
  ("flags", .prim .c_ushort),
  ("sfuture", .array (.prim .c_ushort) 3),
  ("scomplen", .prim .c_uint),
  ("pcomplen", .prim .c_uint),
  ("interval", .prim .c_uint),
  ("ndeviat", .prim .c_uint),
  ("nactproc", .prim .c_uint),
  ("ntask", .prim .c_uint),
  ("totproc", .prim .c_uint),
  ("totrun", .prim .c_uint),
  ("totslpi", .prim .c_uint),
  ("totslpu", .prim .c_uint),
  ("totzomb", .prim .c_uint),
  ("nexit", .prim .c_uint),
  ("noverflow", .prim .c_uint),
  ("ifuture", .array (.prim .c_uint) 6)])

/-- The `_fields_` layout of `class MemStat` (C name `memstat`). -/
def MemStat : CType := .cstruct "memstat" (fieldsOfList [
  ("physmem", count_t),
  ("freemem", count_t),
  ("buffermem", count_t),
  ("slabmem", count_t),
  ("cachemem", count_t),
  ("cachedrt", count_t),
  ("totswap", count_t),
  ("freeswap", count_t),
  ("pgscans", count_t),
  ("pgsteal", count_t),
  ("allocstall", count_t),
  ("swouts", count_t),
  ("swins", count_t),
  ("commitlim", count_t),
  ("committed", count_t),
  ("shmem", count_t),
  ("shmrss", count_t),
  ("shmswp", count_t),
  ("slabreclaim", count_t),
  ("tothugepage", count_t),
  ("freehugepage", count_t),
  ("hugepagesz", count_t),
  ("vmwballoon", count_t),
  ("cfuture", .array count_t 8)])

/-- `FreqCnt = atop_126.FreqCnt` (atop_230.py line 218): aliased, not copied. -/
def FreqCnt : CType := atop_126.FreqCnt

/-- The `_fields_` layout of `class PerCPU` (C name `percpu`). -/
def PerCPU : CType := .cstruct "percpu" (fieldsOfList [
  ("cpunr", .prim .c_int),
  ("stime", count_t),
  ("utime", count_t),
  ("ntime", count_t),
  ("itime", count_t),
  ("wtime", count_t),
  ("Itime", count_t),
  ("Stime", count_t),
  ("steal", count_t),
  ("guest", count_t),
  ("freqcnt", FreqCnt),
  ("cfuture", .array count_t 4)])

/-- The `_fields_` layout of `class CPUStat` (C name `cpustat`). -/
def CPUStat : CType := .cstruct "cpustat" (fieldsOfList [
  ("nrcpu", count_t),
  ("devint", count_t),
  ("csw", count_t),
  ("nprocs", count_t),
  ("lavg1", .prim .c_float),
  ("lavg5", .prim .c_float),
  ("lavg15", .prim .c_float),
  ("cfuture", .array count_t 4),
  ("all", PerCPU),
  ("cpu", .array PerCPU MAXCPU)])

/-- The `_fields_` layout of `class PerDSK` (C name `perdsk`). -/
def PerDSK : CType := .cstruct "perdsk" (fieldsOfList [
  ("name", .array (.prim .c_char) MAXDKNAM),
  ("nread", count_t),
  ("nrsect", count_t),
  ("nwrite", count_t),
  ("nwsect", count_t),
  ("io_ms", count_t),
  ("avque", count_t),
  ("cfuture", .array count_t 4)])

/-- The `_fields_` layout of `class DSKStat` (C name `dskstat`). -/
def DSKStat : CType := .cstruct "dskstat" (fieldsOfList [
  ("ndsk", .prim .c_int),
  ("nmdd", .prim .c_int),
  ("nlvm", .prim .c_int),
  ("dsk", .array PerDSK MAXDSK),
  ("mdd", .array PerDSK MAXMDD),
  ("lvm", .array PerDSK MAXLVM)])

/-- The `_fields_` layout of `class PerIntf` (C name `perintf`). -/
def PerIntf : CType := .cstruct "perintf" (fieldsOfList [
  ("name", .array (.prim .c_char) 16),
  ("rbyte", count_t),
  ("rpack", count_t),
  ("rerrs", count_t),
  ("rdrop", count_t),
  ("rfifo", count_t),
  ("rframe", count_t),
  ("rcompr", count_t),
  ("rmultic", count_t),
  ("rfuture", .array count_t 4),
  ("sbyte", count_t),
  ("spack", count_t),
  ("serrs", count_t),
  ("sdrop", count_t),
  ("sfifo", count_t),
  ("scollis", count_t),
  ("scarrier", count_t),
  ("scompr", count_t),
  ("sfuture", .array count_t 4),
  ("type", .prim .c_char),
  ("speed", .prim .c_long),
  ("speedp", .prim .c_long),
  ("duplex", .prim .c_char),
  ("cfuture", .array count_t 4)])

/-- The `_fields_` layout of `class IntfStat` (C name `intfstat`). -/
def IntfStat : CType := .cstruct "intfstat" (fieldsOfList [
  ("nrintf", .prim .c_int),
  ("intf", .array PerIntf MAXINTF)])

/-- The `_fields_` layout of `class PerNFSMount` (C name `pernfsmount`). -/
def PerNFSMount : CType := .cstruct "pernfsmount" (fieldsOfList [
  ("name", .array (.prim .c_char) 128),
  ("age", count_t),
  ("bytesread", count_t),
  ("byteswrite", count_t),
  ("bytesdread", count_t),
  ("bytesdwrite", count_t),
  ("bytestotread", count_t),
  ("bytestotwrite", count_t),
  ("pagesmread", count_t),
  ("pagesmwrite", count_t),
  ("future", .array count_t 8)])

/-- The `_fields_` layout of `class Server` (C name `server`). -/
def Server : CType := .cstruct "server" (fieldsOfList [
  ("netcnt", count_t),
  ("netudpcnt", count_t),
  ("nettcpcnt", count_t),
  ("nettcpcon", count_t),
  ("rpccnt", count_t),
  ("rpcbadfmt", count_t),
  ("rpcbadaut", count_t),
  ("rpcbadcln", count_t),
  ("rpcread", count_t),
  ("rpcwrite", count_t),
  ("rchits", count_t),
  ("rcmiss", count_t),
  ("rcnoca", count_t),
  ("nrbytes", count_t),
  ("nwbytes", count_t),
  ("future", .array count_t 8)])

/-- The `_fields_` layout of `class Client` (C name `client`). -/
def Client : CType := .cstruct "client" (fieldsOfList [
  ("rpccnt", count_t),
  ("rpcretrans", count_t),
  ("rpcautrefresh", count_t),
  ("rpcread", count_t),
  ("rpcwrite", count_t),
  ("future", .array count_t 8)])

/-- The `_fields_` layout of `class NFSMounts` (C name `mfsmounts`). -/
def NFSMounts : CType := .cstruct "mfsmounts" (fieldsOfList [
  ("nrmounts", .prim .c_int),
  ("pernfsmount", .array PerNFSMount MAXNFSMOUNT)])

/-- The `_fields_` layout of `class NFSStat` (C name `nfstat`). -/
def NFSStat : CType := .cstruct "nfstat" (fieldsOfList [
  ("server", Server),
  ("client", Client),
  ("nfsmounts", NFSMounts)])

/-- The `_fields_` layout of `class PerContainer` (C name `percontainer`). -/
def PerContainer : CType := .cstruct "percontainer" (fieldsOfList [
  ("ctid", .prim .c_ulong),
  ("numproc", .prim .c_ulong),
  ("system", count_t),
  ("user", count_t),
  ("nice", count_t),
  ("uptime", count_t),
  ("physpages", count_t)])

/-- The `_fields_` layout of `class ContStat` (C name `contstat`). -/
def ContStat : CType := .cstruct "contstat" (fieldsOfList [
  ("nrcontainer", .prim .c_int),
  ("cont", .array PerContainer MAXCONTAINER)])

/-- `WWWStat = atop_126.WWWStat` (atop_230.py line 501): aliased, not copied. -/
def WWWStat : CType := atop_126.WWWStat

/-- `IPv4Stats = atop_126.IPv4Stats` (atop_230.py line 504): aliased. -/
def IPv4Stats : CType := atop_126.IPv4Stats

/-- `ICMPv4Stats = atop_126.ICMPv4Stats` (atop_230.py line 507): aliased. -/
def ICMPv4Stats : CType := atop_126.ICMPv4Stats

/-- `UDPv4Stats = atop_126.UDPv4Stats` (atop_230.py line 510): aliased. -/
def UDPv4Stats : CType := atop_126.UDPv4Stats

/-- `TCPStats = atop_126.TCPStats` (atop_230.py line 513): aliased. -/
def TCPStats : CType := atop_126.TCPStats

/-- `IPv6Stats = atop_126.IPv6Stats` (atop_230.py line 516): aliased. -/
def IPv6Stats : CType := atop_126.IPv6Stats

/-- `ICMPv6Stats = atop_126.ICMPv6Stats` (atop_230.py line 519): aliased. -/
def ICMPv6Stats : CType := atop_126.ICMPv6Stats

/-- `UDPv6Stats = atop_126.UDPv6Stats` (atop_230.py line 522): aliased. -/
def UDPv6Stats : CType := atop_126.UDPv6Stats

/-- `NETStat = atop_126.NETStat` (atop_230.py line 525): aliased. -/
def NETStat : CType := atop_126.NETStat

/-- The `_fields_` layout of `class SStat` (C name `sstat`). -/
def SStat : CType := .cstruct "sstat" (fieldsOfList [
  ("cpu", CPUStat),
  ("mem", MemStat),
  ("net", NETStat),
  ("intf", IntfStat),
  ("dsk", DSKStat),
  ("nfs", NFSStat),
  ("cfs", ContStat),
  ("www", WWWStat)])

/-- The `_fields_` layout of `class GEN` (C name `gen`). -/
def GEN : CType := .cstruct "gen" (fieldsOfList [
  ("tgid", .prim .c_int),
  ("pid", .prim .c_int),
  ("ppid", .prim .c_int),
  ("ruid", .prim .c_int),
  ("euid", .prim .c_int),
  ("suid", .prim .c_int),
  ("fsuid", .prim .c_int),
  ("rgid", .prim .c_int),
  ("egid", .prim .c_int),
  ("sgid", .prim .c_int),
  ("fsgid", .prim .c_int),
  ("nthr", .prim .c_int),
  ("name", .array (.prim .c_char) (PNAMLEN + 1)),
  ("isproc", .prim .c_char),
  ("state", .prim .c_char),
  ("excode", .prim .c_int),
  ("btime", time_t),
  ("elaps", time_t),
  ("cmdline", .array (.prim .c_char) (CMDLEN + 1)),
  ("nthrslpi", .prim .c_int),
  ("nthrslpu", .prim .c_int),
  ("nthrrun", .prim .c_int),
  ("ctid", .prim .c_int),
  ("vpid", .prim .c_int),
  ("wasinactive", .prim .c_int),
  ("container", .array (.prim .c_char) 16)])

/-- `CPU = atop_126.CPU` (atop_230.py line 589): aliased, not copied. -/
def CPU : CType := atop_126.CPU

/-- `DSK = atop_126.DSK` (atop_230.py line 592): aliased, not copied. -/
def DSK : CType := atop_126.DSK

/-- The `_fields_` layout of `class MEM` (C name `mem`). -/
def MEM : CType := .cstruct "mem" (fieldsOfList [
  ("minflt", count_t),
  ("majflt", count_t),
  ("vexec", count_t),
  ("vmem", count_t),
  ("rmem", count_t),
  ("pmem", count_t),
  ("vgrow", count_t),
  ("rgrow", count_t),
  ("vdata", count_t),
  ("vstack", count_t),
  ("vlibs", count_t),
  ("vswap", count_t),
  ("cfuture", .array count_t 4)])

/-- The `_fields_` layout of `class NET` (C name `net`). -/
def NET : CType := .cstruct "net" (fieldsOfList [
  ("tcpsnd", count_t),
  ("tcpssz", count_t),
  ("tcprcv", count_t),
  ("tcprsz", count_t),
  ("udpsnd", count_t),
  ("udpssz", count_t),
  ("udprcv", count_t),
  ("udprsz", count_t),
  ("avail1", count_t),
  ("avail2", count_t),
  ("cfuture", .array count_t 4)])

/-- The `_fields_` layout of `class TStat` (C name `tstat`). -/
def TStat : CType := .cstruct "tstat" (fieldsOfList [
  ("gen", GEN),
  ("cpu", CPU),
  ("dsk", DSK),
  ("mem", MEM),
  ("net", NET)])

end atop_230

namespace atop_230

/-- A decoded instance of `class Header`: one Lean field per entry of the
`_fields_` list, in declaration order.  Unsigned ctypes integers are `Nat`,
signed ones `Int`; fixed arrays and the embedded `utsname` sub-record are
kept as their raw contents. -/
structure HeaderObj where
  magic : Nat
  aversion : Nat
  future1 : Nat
  future2 : Nat
  rawheadlen : Nat
  rawreclen : Nat
  hertz : Nat
  sfuture : List Nat
  sstatlen : Nat
  tstatlen : Nat
  utsname : List Nat
  cfuture : List Nat
  pagesize : Nat
  supportflags : Int
  osrel : Int
  osvers : Int
  ossub : Int
  ifuture : List Int
deriving DecidableEq, Repr

/-- Number of digits of the decimal rendering of `n`, for `n < 1000`
(`minor = aversion & 0xff` is below 256).  This is the length of the
fractional part produced by the f-string in `Header.get_version`. -/
def decDigits (n : Nat) : Nat :=
  if n < 10 then 1 else if n < 100 then 2 else 3

/-- `Header.get_version`: extract `major = (aversion >> 8) & 0x7f` and
`minor = aversion & 0xff`, and return the value of the decimal literal
`f'{major}.{minor}'` — the rational `major + minor / 10 ^ digits(minor)`.
The Python `float` is modelled as the exact decimal value. -/
def HeaderObj.get_version (h : HeaderObj) : ℚ :=
  let major := (h.aversion >>> 8) &&& 0x7f
  let minor := h.aversion &&& 0xff
  (major : ℚ) + (minor : ℚ) / (10 : ℚ) ^ decDigits minor

/-- `Header.check_compatibility`: build the list of the four length
comparisons; if any is false, raise `ValueError` carrying that list of
evaluations (the message embeds `compatible`), else return normally. -/
def HeaderObj.check_compatibility (h : HeaderObj) : Except (List Bool) Unit :=
  let compatible := [
    h.sstatlen == sizeofC SStat,
    h.tstatlen == sizeofC TStat,
    h.rawheadlen == sizeofC Header,
    h.rawreclen == sizeofC Record]
  if compatible.all id then Except.ok () else Except.error compatible

/-- State-passing embedding of `Header.get_version`: the method body binds
three locals and returns; no statement assigns to a field of `self`, so
the returned object state is the input state. -/
def HeaderObj.get_version_st (h : HeaderObj) : ℚ × HeaderObj :=
  let major := (h.aversion >>> 8) &&& 0x7f
  let minor := h.aversion &&& 0xff
  let version := (major : ℚ) + (minor : ℚ) / (10 : ℚ) ^ decDigits minor
  (version, h)

/-- State-passing embedding of `Header.check_compatibility`: pairs the
outcome (normal return or raised error) with the object state at that
point; no statement assigns to a field of `self`. -/
def HeaderObj.check_compatibility_st (h : HeaderObj) :
    Except (List Bool × HeaderObj) (Unit × HeaderObj) :=
  let compatible := [
    h.sstatlen == sizeofC SStat,
    h.tstatlen == sizeofC TStat,
    h.rawheadlen == sizeofC Header,
    h.rawreclen == sizeofC Record]
  if compatible.all id then Except.ok ((), h) else Except.error (compatible, h)

/-- The header state after `check_compatibility` finishes, whether it
returned normally or raised. -/
def HeaderObj.stateAfterCheck (h : HeaderObj) : HeaderObj :=
  match h.check_compatibility_st with
  | .ok r => r.2
  | .error e => e.2

/-- An all-zero header instance (concrete test input). -/
def zeroHeader : HeaderObj :=
  { magic := 0, aversion := 0, future1 := 0, future2 := 0, rawheadlen := 0,
    rawreclen := 0, hertz := 0, sfuture := [0, 0, 0, 0, 0, 0], sstatlen := 0,
    tstatlen := 0, utsname := [], cfuture := [0, 0, 0, 0, 0, 0, 0, 0],
    pagesize := 0, supportflags := 0, osrel := 0, osvers := 0, ossub := 0,
    ifuture := [0, 0, 0, 0, 0, 0] }

end atop_230

/-! ## Supporting lemmas -/

theorem decodeArrWith_length (dec : List Nat → Nat → CValue) (sz n : Nat)
    (bs : List Nat) (off : Nat) : (decodeArrWith dec sz n bs off).length = n := by
  induction n generalizing off with
  | zero => rfl
  | succ k ih => simp [decodeArrWith, CValues.length, ih]; omega

set_option maxRecDepth 40000 in
/-- `atop_230.decDigits` agrees with the length of Python's decimal
rendering on every value the minor version can take. -/
theorem decDigits_eq_repr_length :
    ∀ n < 1000, atop_230.decDigits n = (Nat.repr n).length := by
  decide

/-- Field extraction inverts version packing: for a 7-bit major and an
8-bit minor, shifting and masking the packed `major<<8 | minor` recovers
both components. -/
theorem pack_extract (major minor : Nat) (hmaj : major < 2 ^ 7) (hmin : minor < 2 ^ 8) :
    (((major <<< 8) ||| minor) >>> 8) &&& 0x7f = major ∧
    ((major <<< 8) ||| minor) &&& 0xff = minor := by
  have h127 : (0x7f : Nat) = 2 ^ 7 - 1 := rfl
  have h255 : (0xff : Nat) = 2 ^ 8 - 1 := rfl
  constructor
  · apply Nat.eq_of_testBit_eq
    intro i
    have hminor : Nat.testBit minor (8 + i) = false :=
      Nat.testBit_lt_two_pow (lt_of_lt_of_le hmin (Nat.pow_le_pow_right (by norm_num) (by omega)))
    rw [h127]
    simp only [Nat.testBit_and, Nat.testBit_shiftRight, Nat.testBit_or, Nat.testBit_shiftLeft,
      Nat.testBit_two_pow_sub_one, hminor]
    by_cases hi : i < 7
    · simp [hi, Nat.add_sub_cancel_left, show (8 : Nat) ≤ 8 + i by omega]
    · have h1 : Nat.testBit major i = false :=
        Nat.testBit_lt_two_pow (lt_of_lt_of_le hmaj (Nat.pow_le_pow_right (by norm_num) (by omega)))
      by_cases h8 : 8 ≤ 8 + i
      · simp [hi, h8, Nat.add_sub_cancel_left, h1]
      · simp [hi, h8, h1]
  · apply Nat.eq_of_testBit_eq
    intro i
    rw [h255]
    simp only [Nat.testBit_and, Nat.testBit_or, Nat.testBit_shiftLeft,
      Nat.testBit_two_pow_sub_one]
    by_cases hi : i < 8
    · have h8 : ¬ (8 ≤ i) := by omega
      simp [hi, h8]
    · have h1 : Nat.testBit minor i = false :=
        Nat.testBit_lt_two_pow (lt_of_lt_of_le hmin (Nat.pow_le_pow_right (by norm_num) (by omega)))
      simp [hi, h1]

/-- A named field that `fieldTyOff` resolves to an array type always
decodes to an array of exactly the declared number of elements, whatever
the buffer contents. -/
theorem decodedArrayLength_of_fieldTyOff (t : CType) (fname : String) (et : CType)
    (n off : Nat) (hfind : fieldTyOff (structFieldsOf t) fname 0 = some (.array et n, off))
    (bs : List Nat) : decodedArrayLength t fname bs = some n := by
  unfold decodedArrayLength decodeField
  rw [hfind]
  simp [decodeTy, decodeArrWith_length]

/-! ## Claims -/

/-- C1, counterexample: the claim asserts `get_version` returns
`major + minor/100` for every 16-bit `aversion`.  At `aversion = 0x0205`
(major 2, minor 5) the code builds `float('2.5') = 2.5`, not
`2 + 5/100 = 2.05`. -/
theorem C1_counterexample :
    (((517 : Nat) >>> 8) &&& 0x7f = 2 ∧ (517 : Nat) &&& 0xff = 5) ∧
    atop_230.HeaderObj.get_version { atop_230.zeroHeader with aversion := 517 } = 5 / 2 ∧
    atop_230.HeaderObj.get_version { atop_230.zeroHeader with aversion := 517 } ≠
      2 + 5 / 100 := by
  have e1 : (517 : Nat) >>> 8 &&& 0x7f = 2 := by decide
  have e2 : (517 : Nat) &&& 0xff = 5 := by decide
  refine ⟨⟨e1, e2⟩, ?_, ?_⟩ <;>
    · simp only [atop_230.HeaderObj.get_version, e1, e2]
      norm_num [atop_230.decDigits]

/-- C1, amended: `get_version` extracts `major = (aversion >> 8) & 0x7f`
and `minor = aversion & 0xff` and returns the decimal value of the string
`"major.minor"`; when minor has two decimal digits (as in the claim's
example `minor = 30`), that value is `major + minor/100`. -/
theorem C1_get_version_amended (h : atop_230.HeaderObj)
    (h10 : 10 ≤ h.aversion &&& 0xff) (h100 : h.aversion &&& 0xff < 100) :
    h.get_version = (((h.aversion >>> 8) &&& 0x7f : Nat) : ℚ) +
      ((h.aversion &&& 0xff : Nat) : ℚ) / 100 := by
  have hd : atop_230.decDigits (h.aversion &&& 0xff) = 2 := by
    unfold atop_230.decDigits
    rw [if_neg (by omega), if_pos (by omega)]
  simp only [atop_230.HeaderObj.get_version, hd]
  norm_num

/-- C1, witness: at `aversion = 0x021E` (major 2, minor 30) both
hypotheses hold and the version is `2 + 30/100 = 2.30`, the claim's own
example. -/
theorem C1_witness :
    (10 ≤ (542 : Nat) &&& 0xff ∧ (542 : Nat) &&& 0xff < 100) ∧
    atop_230.HeaderObj.get_version { atop_230.zeroHeader with aversion := 542 } =
      2 + 30 / 100 := by
  refine ⟨⟨by decide, by decide⟩, ?_⟩
  rw [C1_get_version_amended { atop_230.zeroHeader with aversion := 542 } (by decide) (by decide)]
  have e1 : (542 : Nat) >>> 8 &&& 0x7f = 2 := by decide
  have e2 : (542 : Nat) &&& 0xff = 30 := by decide
  rw [show ({ atop_230.zeroHeader with aversion := 542 } :
    atop_230.HeaderObj).aversion = 542 from rfl, e1, e2]
  norm_num

/-- C2: `check_compatibility` returns normally iff all four length fields
equal the computed struct sizes, and otherwise raises an error carrying
the list of the four comparison outcomes (identifying which mismatched). -/
theorem C2_check_compatibility_iff (h : atop_230.HeaderObj) :
    (h.check_compatibility = Except.ok () ↔
      (h.sstatlen = sizeofC atop_230.SStat ∧ h.tstatlen = sizeofC atop_230.TStat ∧
       h.rawheadlen = sizeofC atop_230.Header ∧ h.rawreclen = sizeofC atop_230.Record)) ∧
    (h.check_compatibility = Except.error
        [decide (h.sstatlen = sizeofC atop_230.SStat),
         decide (h.tstatlen = sizeofC atop_230.TStat),
         decide (h.rawheadlen = sizeofC atop_230.Header),
         decide (h.rawreclen = sizeofC atop_230.Record)] ↔
      ¬ (h.sstatlen = sizeofC atop_230.SStat ∧ h.tstatlen = sizeofC atop_230.TStat ∧
         h.rawheadlen = sizeofC atop_230.Header ∧ h.rawreclen = sizeofC atop_230.Record)) := by
  unfold atop_230.HeaderObj.check_compatibility
  by_cases e1 : h.sstatlen = sizeofC atop_230.SStat <;>
    by_cases e2 : h.tstatlen = sizeofC atop_230.TStat <;>
      by_cases e3 : h.rawheadlen = sizeofC atop_230.Header <;>
        by_cases e4 : h.rawreclen = sizeofC atop_230.Record <;>
          simp [e1, e2, e3, e4]

/-- C9: `get_version` and `check_compatibility` leave every field of the
header unchanged — the state-passing embeddings return the input object
both on normal return and on raise. -/
theorem C9_methods_preserve_header (h : atop_230.HeaderObj) :
    (h.get_version_st).2 = h ∧ h.stateAfterCheck = h := by
  refine ⟨rfl, ?_⟩
  unfold atop_230.HeaderObj.stateAfterCheck atop_230.HeaderObj.check_compatibility_st
  by_cases c : [h.sstatlen == sizeofC atop_230.SStat, h.tstatlen == sizeofC atop_230.TStat,
    h.rawheadlen == sizeofC atop_230.Header, h.rawreclen == sizeofC atop_230.Record].all id <;>
    simp [c]

/-- C10: headers agreeing on the four length fields are treated identically
by `check_compatibility`; no other field influences the outcome. -/
theorem C10_check_depends_only_on_lengths (h1 h2 : atop_230.HeaderObj)
    (hs : h1.sstatlen = h2.sstatlen) (ht : h1.tstatlen = h2.tstatlen)
    (hh : h1.rawheadlen = h2.rawheadlen) (hr : h1.rawreclen = h2.rawreclen) :
    h1.check_compatibility = h2.check_compatibility := by
  unfold atop_230.HeaderObj.check_compatibility
  rw [hs, ht, hh, hr]

/-- C10, witness: two headers differing in magic, aversion, hertz and
pagesize but with equal length fields get the same verdict. -/
theorem C10_witness :
    atop_230.HeaderObj.check_compatibility
        { atop_230.zeroHeader with magic := 1, aversion := 542, hertz := 100, pagesize := 4096 } =
      atop_230.HeaderObj.check_compatibility atop_230.zeroHeader :=
  C10_check_depends_only_on_lengths _ _ rfl rfl rfl rfl

set_option maxRecDepth 40000 in
/-- C3, counterexample: the claim asserts `size_of` equals the plain sum of
field widths with no implementation-language padding; for `Record` ctypes
inserts 4 trailing alignment bytes (96 versus the 92-byte width sum). -/
theorem C3_counterexample :
    sizeofC atop_230.Record = 96 ∧ sumWidths atop_230.Record = 92 ∧
    sizeofC atop_230.Record ≠ sumWidths atop_230.Record := by
  decide

set_option maxRecDepth 100000 in
/-- C3, amended: `size_of` of every layout of the 2.30 module is the
natural-alignment (C ABI) size; it equals the sum of the declared field
widths exactly for the layouts whose fields are naturally packed, and
exceeds it where alignment padding is inserted (Header, Record, PerCPU,
CPUStat, DSKStat, PerIntf, IntfStat, NFSMounts, NFSStat, ContStat, SStat,
GEN, TStat). -/
theorem C3_sizes_amended :
    (sizeofC atop_230.Header = 480 ∧ sumWidths atop_230.Header = 478) ∧
    (sizeofC atop_230.Record = 96 ∧ sumWidths atop_230.Record = 92) ∧
    (sizeofC atop_230.MemStat = 248 ∧ sumWidths atop_230.MemStat = 248) ∧
    (sizeofC atop_230.PerCPU = 136 ∧ sumWidths atop_230.PerCPU = 132) ∧
    (sizeofC atop_230.CPUStat = 278744 ∧ sumWidths atop_230.CPUStat = 270544) ∧
    (sizeofC atop_230.PerDSK = 112 ∧ sumWidths atop_230.PerDSK = 112) ∧
    (sizeofC atop_230.DSKStat = 372752 ∧ sumWidths atop_230.DSKStat = 372748) ∧
    (sizeofC atop_230.PerIntf = 272 ∧ sumWidths atop_230.PerIntf = 258) ∧
    (sizeofC atop_230.IntfStat = 34824 ∧ sumWidths atop_230.IntfStat = 33028) ∧
    (sizeofC atop_230.PerNFSMount = 264 ∧ sumWidths atop_230.PerNFSMount = 264) ∧
    (sizeofC atop_230.Server = 184 ∧ sumWidths atop_230.Server = 184) ∧
    (sizeofC atop_230.Client = 104 ∧ sumWidths atop_230.Client = 104) ∧
    (sizeofC atop_230.NFSMounts = 16904 ∧ sumWidths atop_230.NFSMounts = 16900) ∧
    (sizeofC atop_230.NFSStat = 17192 ∧ sumWidths atop_230.NFSStat = 17188) ∧
    (sizeofC atop_230.PerContainer = 56 ∧ sumWidths atop_230.PerContainer = 56) ∧
    (sizeofC atop_230.ContStat = 7176 ∧ sumWidths atop_230.ContStat = 7172) ∧
    (sizeofC atop_230.SStat = 711904 ∧ sumWidths atop_230.SStat = 701896) ∧
    (sizeofC atop_230.GEN = 384 ∧ sumWidths atop_230.GEN = 382) ∧
    (sizeofC atop_230.MEM = 128 ∧ sumWidths atop_230.MEM = 128) ∧
    (sizeofC atop_230.NET = 112 ∧ sumWidths atop_230.NET = 112) ∧
    (sizeofC atop_230.TStat = 784 ∧ sumWidths atop_230.TStat = 782) := by
  decide

/-- C4: every layout the 2.30 module reuses from the 1.26 module is the
same canonical definition (the aliasing assignments of atop_230.py), hence
has the same size and decodes every byte sequence to identical values
under both modules. -/
theorem C4_aliasing :
    (atop_230.UTSName = atop_126.UTSName ∧ atop_230.FreqCnt = atop_126.FreqCnt ∧
     atop_230.WWWStat = atop_126.WWWStat ∧ atop_230.IPv4Stats = atop_126.IPv4Stats ∧
     atop_230.ICMPv4Stats = atop_126.ICMPv4Stats ∧ atop_230.UDPv4Stats = atop_126.UDPv4Stats ∧
     atop_230.TCPStats = atop_126.TCPStats ∧ atop_230.IPv6Stats = atop_126.IPv6Stats ∧
     atop_230.ICMPv6Stats = atop_126.ICMPv6Stats ∧ atop_230.UDPv6Stats = atop_126.UDPv6Stats ∧
     atop_230.NETStat = atop_126.NETStat ∧ atop_230.CPU = atop_126.CPU ∧
     atop_230.DSK = atop_126.DSK) ∧
    (sizeofC atop_230.UTSName = sizeofC atop_126.UTSName ∧
     sizeofC atop_230.WWWStat = sizeofC atop_126.WWWStat ∧
     sizeofC atop_230.NETStat = sizeofC atop_126.NETStat ∧
     sizeofC atop_230.CPU = sizeofC atop_126.CPU ∧
     sizeofC atop_230.DSK = sizeofC atop_126.DSK) ∧
    (∀ bs off, decodeTy atop_230.UTSName bs off = decodeTy atop_126.UTSName bs off ∧
      decodeTy atop_230.WWWStat bs off = decodeTy atop_126.WWWStat bs off ∧
      decodeTy atop_230.NETStat bs off = decodeTy atop_126.NETStat bs off ∧
      decodeTy atop_230.CPU bs off = decodeTy atop_126.CPU bs off ∧
      decodeTy atop_230.DSK bs off = decodeTy atop_126.DSK bs off) :=
  ⟨⟨rfl, rfl, rfl, rfl, rfl, rfl, rfl, rfl, rfl, rfl, rfl, rfl, rfl⟩,
   ⟨rfl, rfl, rfl, rfl, rfl⟩,
   fun _ _ => ⟨rfl, rfl, rfl, rfl, rfl⟩⟩

set_option maxRecDepth 40000 in
/-- C5: the five fixed-size arrays of the SStat sub-records are declared
at, and always decoded at, their full maxima — 2048 per-core, 1024
per-disk, 128 per-interface, 128 per-container, 64 per-NFS-mount entries —
for every byte buffer, independent of the sibling count fields. -/
theorem C5_arrays_full_maxima :
    (fieldTypeOf atop_230.CPUStat "cpu" = some (.array atop_230.PerCPU 2048) ∧
     fieldTypeOf atop_230.DSKStat "dsk" = some (.array atop_230.PerDSK 1024) ∧
     fieldTypeOf atop_230.IntfStat "intf" = some (.array atop_230.PerIntf 128) ∧
     fieldTypeOf atop_230.ContStat "cont" = some (.array atop_230.PerContainer 128) ∧
     fieldTypeOf atop_230.NFSMounts "pernfsmount" = some (.array atop_230.PerNFSMount 64)) ∧
    (∀ bs, decodedArrayLength atop_230.CPUStat "cpu" bs = some 2048 ∧
      decodedArrayLength atop_230.DSKStat "dsk" bs = some 1024 ∧
      decodedArrayLength atop_230.IntfStat "intf" bs = some 128 ∧
      decodedArrayLength atop_230.ContStat "cont" bs = some 128 ∧
      decodedArrayLength atop_230.NFSMounts "pernfsmount" bs = some 64) := by
  refine ⟨⟨by decide, by decide, by decide, by decide, by decide⟩, fun bs => ⟨?_, ?_, ?_, ?_, ?_⟩⟩
  · exact decodedArrayLength_of_fieldTyOff _ _ atop_230.PerCPU 2048 216 (by decide) bs
  · exact decodedArrayLength_of_fieldTyOff _ _ atop_230.PerDSK 1024 16 (by decide) bs
  · exact decodedArrayLength_of_fieldTyOff _ _ atop_230.PerIntf 128 8 (by decide) bs
  · exact decodedArrayLength_of_fieldTyOff _ _ atop_230.PerContainer 128 8 (by decide) bs
  · exact decodedArrayLength_of_fieldTyOff _ _ atop_230.PerNFSMount 64 8 (by decide) bs

set_option maxRecDepth 40000 in
/-- C6, counterexample: SStat's sub-records are not laid out in the
claimed order CPUStat, MemStat, DSKStat, IntfStat, NFSStat, ContStat,
NETStat, WWWStat — the declared order puts NETStat third and DSKStat
fifth. -/
theorem C6_counterexample :
    fieldTypes (structFieldsOf atop_230.SStat) ≠
      [atop_230.CPUStat, atop_230.MemStat, atop_230.DSKStat, atop_230.IntfStat,
       atop_230.NFSStat, atop_230.ContStat, atop_230.NETStat, atop_230.WWWStat] := by
  decide

set_option maxRecDepth 40000 in
/-- C6, amended: SStat is composed of exactly the eight sub-records in the
declared order cpu (CPUStat), mem (MemStat), net (NETStat), intf
(IntfStat), dsk (DSKStat), nfs (NFSStat), cfs (ContStat), www (WWWStat),
and each sub-record's byte offset is the sum of the sizes of those listed
before it. -/
theorem C6_sstat_composition :
    fieldTypes (structFieldsOf atop_230.SStat) =
      [atop_230.CPUStat, atop_230.MemStat, atop_230.NETStat, atop_230.IntfStat,
       atop_230.DSKStat, atop_230.NFSStat, atop_230.ContStat, atop_230.WWWStat] ∧
    fieldNames (structFieldsOf atop_230.SStat) =
      ["cpu", "mem", "net", "intf", "dsk", "nfs", "cfs", "www"] ∧
    offsetOf atop_230.SStat "cpu" = some 0 ∧
    offsetOf atop_230.SStat "mem" = some (sizeofC atop_230.CPUStat) ∧
    offsetOf atop_230.SStat "net" =
      some (sizeofC atop_230.CPUStat + sizeofC atop_230.MemStat) ∧
    offsetOf atop_230.SStat "intf" =
      some (sizeofC atop_230.CPUStat + sizeofC atop_230.MemStat + sizeofC atop_230.NETStat) ∧
    offsetOf atop_230.SStat "dsk" =
      some (sizeofC atop_230.CPUStat + sizeofC atop_230.MemStat + sizeofC atop_230.NETStat +
        sizeofC atop_230.IntfStat) ∧
    offsetOf atop_230.SStat "nfs" =
      some (sizeofC atop_230.CPUStat + sizeofC atop_230.MemStat + sizeofC atop_230.NETStat +
        sizeofC atop_230.IntfStat + sizeofC atop_230.DSKStat) ∧
    offsetOf atop_230.SStat "cfs" =
      some (sizeofC atop_230.CPUStat + sizeofC atop_230.MemStat + sizeofC atop_230.NETStat +
        sizeofC atop_230.IntfStat + sizeofC atop_230.DSKStat + sizeofC atop_230.NFSStat) ∧
    offsetOf atop_230.SStat "www" =
      some (sizeofC atop_230.CPUStat + sizeofC atop_230.MemStat + sizeofC atop_230.NETStat +
        sizeofC atop_230.IntfStat + sizeofC atop_230.DSKStat + sizeofC atop_230.NFSStat +
        sizeofC atop_230.ContStat) := by
  refine ⟨by decide, by decide, ?_, ?_, ?_, ?_, ?_, ?_, ?_, ?_⟩ <;> decide

set_option maxRecDepth 40000 in
/-- C7, counterexample: the claim asserts Record holds both the compressed
and the uncompressed byte lengths of the following blobs; the complete
field list holds only the compressed lengths `scomplen`/`pcomplen` and no
uncompressed-length field (the uncompressed lengths `sstatlen`/`tstatlen`
are Header fields). -/
theorem C7_counterexample :
    fieldNames (structFieldsOf atop_230.Record) =
      ["curtime", "flags", "sfuture", "scomplen", "pcomplen", "interval", "ndeviat",
       "nactproc", "ntask", "totproc", "totrun", "totslpi", "totslpu", "totzomb",
       "nexit", "noverflow", "ifuture"] ∧
    "sstatlen" ∉ fieldNames (structFieldsOf atop_230.Record) ∧
    "tstatlen" ∉ fieldNames (structFieldsOf atop_230.Record) := by
  decide

set_option maxRecDepth 40000 in
/-- C7, amended: Record contains the sample timestamp `curtime`, `flags`,
the compressed byte lengths `scomplen`/`pcomplen` of the following SStat
and TStat blobs, the interval duration, and the task/process/thread counts
including `ndeviat`, each with its declared scalar type. -/
theorem C7_record_fields :
    fieldNames (structFieldsOf atop_230.Record) =
      ["curtime", "flags", "sfuture", "scomplen", "pcomplen", "interval", "ndeviat",
       "nactproc", "ntask", "totproc", "totrun", "totslpi", "totslpu", "totzomb",
       "nexit", "noverflow", "ifuture"] ∧
    fieldTypeOf atop_230.Record "curtime" = some atop_230.time_t ∧
    fieldTypeOf atop_230.Record "flags" = some (.prim .c_ushort) ∧
    fieldTypeOf atop_230.Record "scomplen" = some (.prim .c_uint) ∧
    fieldTypeOf atop_230.Record "pcomplen" = some (.prim .c_uint) ∧
    fieldTypeOf atop_230.Record "interval" = some (.prim .c_uint) ∧
    fieldTypeOf atop_230.Record "ndeviat" = some (.prim .c_uint) ∧
    fieldTypeOf atop_230.Record "nactproc" = some (.prim .c_uint) ∧
    fieldTypeOf atop_230.Record "ntask" = some (.prim .c_uint) ∧
    fieldTypeOf atop_230.Record "totproc" = some (.prim .c_uint) ∧
    fieldTypeOf atop_230.Record "totrun" = some (.prim .c_uint) ∧
    fieldTypeOf atop_230.Record "totslpi" = some (.prim .c_uint) ∧
    fieldTypeOf atop_230.Record "totslpu" = some (.prim .c_uint) ∧
    fieldTypeOf atop_230.Record "totzomb" = some (.prim .c_uint) ∧
    fieldTypeOf atop_230.Record "nexit" = some (.prim .c_uint) ∧
    fieldTypeOf atop_230.Record "noverflow" = some (.prim .c_uint) := by
  decide

set_option maxRecDepth 40000 in
/-- C8: Header starts with the 4-byte unsigned `magic` at offset 0,
immediately followed by the 2-byte unsigned `aversion` at offset 4, which
holds `major<<8 | minor` with a 7-bit major: shifting and masking the
packed value recovers both components. -/
theorem C8_header_magic_aversion :
    (fieldNames (structFieldsOf atop_230.Header)).head? = some "magic" ∧
    offsetOf atop_230.Header "magic" = some 0 ∧
    fieldTypeOf atop_230.Header "magic" = some (.prim .c_uint) ∧
    sizeofC (.prim .c_uint) = 4 ∧ CScalar.signed .c_uint = false ∧
    (fieldNames (structFieldsOf atop_230.Header)).get? 1 = some "aversion" ∧
    offsetOf atop_230.Header "aversion" = some 4 ∧
    fieldTypeOf atop_230.Header "aversion" = some (.prim .c_ushort) ∧
    sizeofC (.prim .c_ushort) = 2 ∧ CScalar.signed .c_ushort = false ∧
    (∀ major minor : Nat, major < 2 ^ 7 → minor < 2 ^ 8 →
      (((major <<< 8) ||| minor) >>> 8) &&& 0x7f = major ∧
      ((major <<< 8) ||| minor) &&& 0xff = minor ∧
      (major <<< 8) ||| minor < 2 ^ 16) := by
  refine ⟨by decide, by decide, by decide, rfl, rfl, by decide, by decide, by decide, rfl, rfl,
    fun major minor hmaj hmin => ⟨(pack_extract major minor hmaj hmin).1,
      (pack_extract major minor hmaj hmin).2, ?_⟩⟩
  have h1 : (major <<< 8) ||| minor < 2 ^ 16 := by
    apply Nat.bitwise_lt_two_pow
    · rw [Nat.shiftLeft_eq]
      calc major * 2 ^ 8 < 2 ^ 7 * 2 ^ 8 := by
            exact Nat.mul_lt_mul_of_lt_of_le hmaj (le_refl _) (by norm_num)
      _ ≤ 2 ^ 16 := by norm_num
    · exact lt_of_lt_of_le hmin (by norm_num)
  exact h1

/-- C8, witness: at major 2, minor 30 the packed value is 542 and the
extraction identities hold. -/
theorem C8_witness :
    (2 : Nat) < 2 ^ 7 ∧ (30 : Nat) < 2 ^ 8 ∧
    ((((2 <<< 8) ||| 30) >>> 8) &&& 0x7f = 2 ∧ ((2 <<< 8) ||| 30) &&& 0xff = 30 ∧
      (2 <<< 8) ||| 30 < 2 ^ 16) :=
  ⟨by decide, by decide,
    C8_header_magic_aversion.2.2.2.2.2.2.2.2.2.2 2 30 (by decide) (by decide)⟩
